import Mathlib

/-!
Shallow embedding of `src/native/src/bacnet_plugin.c` (gencto/bacnet_plugin).

The C file is a safety shim around an external BACnet stack: a global
`jmp_buf g_exit_jmp` with a `bool g_jmp_active` flag, an interceptor
`bacnet_plugin_exit_handler` that the build substitutes for `exit`, and six
guarded entry points that wrap one external-stack call each inside
`__try { g_jmp_active = true; if (setjmp(g_exit_jmp) == 0) ... } __except ...`
followed by `g_jmp_active = false`.

The external stack is opaque: each external function is a parameter of the
entry point, returning an `ExtBehavior` describing what the one call it
receives does (return normally with a value, call the substituted `exit`,
or raise a hardware fault caught by the SEH `__except` clause).

Mutable process state is threaded explicitly as `PluginState`:
`g_jmp_active` (line 8 of the C file), the sequence of diagnostic lines
written by `OutputDebugStringA`, and whether `TerminateThread` has run.
-/

/-- What the single external-stack call inside a guarded entry point does:
return normally with a value, call the intercepted `exit(code)`, or trigger a
hardware fault (access violation) that the SEH `__except` clause traps. -/
inductive ExtBehavior (α : Type) where
  | ret (v : α)
  | callsExit (code : Int)
  | fault
  deriving DecidableEq, Repr

/-- Mutable process-wide state of the C file: the armed flag `g_jmp_active`
(line 8), the diagnostic lines emitted via `OutputDebugStringA` in order, and
whether `TerminateThread` (line 28) has been executed. -/
structure PluginState where
  g_jmp_active : Bool
  threadTerminated : Bool
  log : List String
  deriving DecidableEq, Repr

/-- Process start state: `g_jmp_active = false` (line 8 initialiser), no
diagnostics, thread running. -/
def initState : PluginState :=
  { g_jmp_active := false, threadTerminated := false, log := [] }

/-- How a call to `bacnet_plugin_exit_handler` ends: `resumed` is the
`longjmp(g_exit_jmp, 1)` on line 24 (control transfers to the armed
`setjmp` point); `terminated code` is `TerminateThread(GetCurrentThread(),
code)` on line 28. -/
inductive ExitResult where
  | resumed
  | terminated (code : Int)
  deriving DecidableEq, Repr

/-- The diagnostic line the interceptor prints (lines 19-21):
`sprintf(buf, "BACnet Native Exit Intercepted: code %d\n", code)`. -/
def exitInterceptedMsg (code : Int) : String :=
  "BACnet Native Exit Intercepted: code " ++ toString code ++ "\n"

/-- `bacnet_plugin_exit_handler` (lines 17-29): print the diagnostic, then
`longjmp` back if `g_jmp_active`, otherwise terminate the current thread
with the given code. -/
def bacnet_plugin_exit_handler (code : Int) (s : PluginState) :
    ExitResult × PluginState :=
  let s1 : PluginState := { s with log := s.log ++ [exitInterceptedMsg code] }
  if s1.g_jmp_active then
    (ExitResult.resumed, s1)
  else
    (ExitResult.terminated code, { s1 with threadTerminated := true })

/-- How a guarded entry point ends for its host caller: `returned v s` means
it returned value `v` normally with final process state `s`;
`threadKilled s` means `TerminateThread` ran inside the interceptor and the
entry point never returned. -/
inductive CallResult (α : Type) where
  | returned (v : α) (s : PluginState)
  | threadKilled (s : PluginState)
  deriving DecidableEq, Repr

/-- The value a guarded entry point handed back to the host, if it returned. -/
def CallResult.value {α : Type} : CallResult α → Option α
  | CallResult.returned v _ => some v
  | CallResult.threadKilled _ => none

/-- The process state after a guarded entry point finished (either way). -/
def CallResult.state {α : Type} : CallResult α → PluginState
  | CallResult.returned _ s => s
  | CallResult.threadKilled s => s

/-- True when the invocation ended in `TerminateThread` instead of returning. -/
def CallResult.killed {α : Type} : CallResult α → Bool
  | CallResult.returned _ _ => false
  | CallResult.threadKilled _ => true

/-- The per-entry-point diagnostic on the intercepted-exit path, e.g.
`"BACnet WPM: Intercepted exit()\n"` (lines 43, 64, 83, 102, 125, 146). -/
def interceptMsg (tag : String) : String :=
  "BACnet " ++ tag ++ ": Intercepted exit()\n"

/-- The per-entry-point diagnostic on the trapped-fault path, e.g.
`"BACnet WPM: Caught Access Violation/Crash!\n"` (lines 47, 68, 87, 106,
129, 149). -/
def crashMsg (tag : String) : String :=
  "BACnet " ++ tag ++ ": Caught Access Violation/Crash!\n"

/-- The shared skeleton of every guarded entry point (lines 37-51 and its
five copies): set `g_jmp_active := true`, `setjmp`, run the external call;
on normal return keep its value; if the call invokes the intercepted
`exit`, run `bacnet_plugin_exit_handler` — a `longjmp` resumes at the
`setjmp` with 1, logging the `interceptMsg` line and selecting the sentinel,
while `TerminateThread` ends the thread with the statement
`g_jmp_active = false` never reached; if the call faults, the `__except`
clause logs the `crashMsg` line and selects the sentinel. On every returning
path `g_jmp_active := false` runs last. -/
def guarded {α : Type} (tag : String) (sentinel : α) (behavior : ExtBehavior α)
    (s : PluginState) : CallResult α :=
  let s1 : PluginState := { s with g_jmp_active := true }
  match behavior with
  | ExtBehavior.ret v =>
      CallResult.returned v { s1 with g_jmp_active := false }
  | ExtBehavior.callsExit code =>
      match bacnet_plugin_exit_handler code s1 with
      | (ExitResult.resumed, s2) =>
          let s3 : PluginState := { s2 with log := s2.log ++ [interceptMsg tag] }
          CallResult.returned sentinel { s3 with g_jmp_active := false }
      | (ExitResult.terminated _, s2) =>
          CallResult.threadKilled s2
  | ExtBehavior.fault =>
      let s2 : PluginState := { s1 with log := s1.log ++ [crashMsg tag] }
      CallResult.returned sentinel { s2 with g_jmp_active := false }

/-- `MAX_APDU` comes from the external stack's headers (not in this
repository); its concrete value is irrelevant to the wrapper, which only
uses it as the size of the local `pdu` buffer on line 40. -/
def MAX_APDU : Nat := 1476

/-- An argument passed across the boundary to an external-stack function:
an integral value, an opaque pointer (modelled by its address), a byte
buffer the wrapper created itself, or an interface-name string. -/
inductive BArg where
  | num (n : Nat)
  | ptr (p : Nat)
  | buf (bytes : List Nat)
  | str (ifname : String)
  deriving DecidableEq, Repr

def wpmTag : String := "WPM"
def readRangeTag : String := "ReadRange"
def bipInitTag : String := "safe_bip_init"
def datalinkInitTag : String := "safe_datalink_init"
def bipReceiveTag : String := "safe_bip_receive"
def npduHandlerTag : String := "safe_npdu_handler"

/-- Arguments the wrapper actually passes to
`Send_Write_Property_Multiple_Request` on line 41: the local zeroed `pdu`
buffer (line 40), `sizeof(pdu)` = `MAX_APDU`, then the caller's `device_id`
and `write_access_data`. -/
def wpm_invoked_args (device_id write_access_data : Nat) : List BArg :=
  [BArg.buf (List.replicate MAX_APDU 0), BArg.num MAX_APDU,
   BArg.num device_id, BArg.ptr write_access_data]

/-- Arguments the wrapper passes to `Send_ReadRange_Request` on line 62:
exactly the caller's `device_id` and `read_range_data`. -/
def read_range_invoked_args (device_id read_range_data : Nat) : List BArg :=
  [BArg.num device_id, BArg.ptr read_range_data]

/-- Arguments the wrapper passes to `bip_init` on line 81. -/
def bip_init_invoked_args (ifname : String) : List BArg :=
  [BArg.str ifname]

/-- Arguments the wrapper passes to `datalink_init` on line 100. -/
def datalink_init_invoked_args (ifname : String) : List BArg :=
  [BArg.str ifname]

/-- Arguments the wrapper passes to `bip_receive` on line 123. -/
def bip_receive_invoked_args (src npdu max_npdu timeout : Nat) : List BArg :=
  [BArg.ptr src, BArg.ptr npdu, BArg.num max_npdu, BArg.num timeout]

/-- Arguments the wrapper passes to `npdu_handler` on line 144. -/
def npdu_handler_invoked_args (src npdu pdu_len : Nat) : List BArg :=
  [BArg.ptr src, BArg.ptr npdu, BArg.num pdu_len]

/-- The caller-supplied arguments of the WPM entry point, per its prototype
(header lines 36-38), used to compare with what is actually forwarded. -/
def wpm_caller_args (device_id write_access_data : Nat) : List BArg :=
  [BArg.num device_id, BArg.ptr write_access_data]

/-- Caller-supplied arguments of the ReadRange entry point (header 40-42). -/
def read_range_caller_args (device_id read_range_data : Nat) : List BArg :=
  [BArg.num device_id, BArg.ptr read_range_data]

/-- Caller-supplied argument of `bacnet_plugin_safe_bip_init` (header 45). -/
def bip_init_caller_args (ifname : String) : List BArg :=
  [BArg.str ifname]

/-- Caller-supplied argument of `bacnet_plugin_safe_datalink_init`. -/
def datalink_init_caller_args (ifname : String) : List BArg :=
  [BArg.str ifname]

/-- Caller-supplied arguments of `bacnet_plugin_safe_bip_receive`. -/
def bip_receive_caller_args (src npdu max_npdu timeout : Nat) : List BArg :=
  [BArg.ptr src, BArg.ptr npdu, BArg.num max_npdu, BArg.num timeout]

/-- Caller-supplied arguments of `bacnet_plugin_safe_npdu_handler`. -/
def npdu_handler_caller_args (src npdu pdu_len : Nat) : List BArg :=
  [BArg.ptr src, BArg.ptr npdu, BArg.num pdu_len]

/-- `bacnet_plugin_send_write_property_multiple` (lines 32-52): guard the
single call `Send_Write_Property_Multiple_Request(pdu, sizeof(pdu),
device_id, write_access_data)` with sentinel `0`. -/
def bacnet_plugin_send_write_property_multiple
    (Send_Write_Property_Multiple_Request : List BArg → ExtBehavior Nat)
    (device_id write_access_data : Nat) (s : PluginState) : CallResult Nat :=
  guarded wpmTag 0
    (Send_Write_Property_Multiple_Request (wpm_invoked_args device_id write_access_data)) s

/-- `bacnet_plugin_send_read_range_request` (lines 54-73): guard the single
call `Send_ReadRange_Request(device_id, read_range_data)` with sentinel `0`. -/
def bacnet_plugin_send_read_range_request
    (Send_ReadRange_Request : List BArg → ExtBehavior Nat)
    (device_id read_range_data : Nat) (s : PluginState) : CallResult Nat :=
  guarded readRangeTag 0
    (Send_ReadRange_Request (read_range_invoked_args device_id read_range_data)) s

/-- `bacnet_plugin_safe_bip_init` (lines 75-92): guard `bip_init(ifname)`
with sentinel `false`. -/
def bacnet_plugin_safe_bip_init
    (bip_init : List BArg → ExtBehavior Bool)
    (ifname : String) (s : PluginState) : CallResult Bool :=
  guarded bipInitTag false (bip_init (bip_init_invoked_args ifname)) s

/-- `bacnet_plugin_safe_datalink_init` (lines 94-111): guard
`datalink_init(ifname)` with sentinel `false`. -/
def bacnet_plugin_safe_datalink_init
    (datalink_init : List BArg → ExtBehavior Bool)
    (ifname : String) (s : PluginState) : CallResult Bool :=
  guarded datalinkInitTag false (datalink_init (datalink_init_invoked_args ifname)) s

/-- `bacnet_plugin_safe_bip_receive` (lines 113-134): guard
`bip_receive(src, npdu, max_npdu, timeout)` with sentinel `-1`. -/
def bacnet_plugin_safe_bip_receive
    (bip_receive : List BArg → ExtBehavior Int)
    (src npdu max_npdu timeout : Nat) (s : PluginState) : CallResult Int :=
  guarded bipReceiveTag (-1) (bip_receive (bip_receive_invoked_args src npdu max_npdu timeout)) s

/-- `bacnet_plugin_safe_npdu_handler` (lines 136-152): guard
`npdu_handler(src, npdu, pdu_len)`; the C function is `void`, modelled with
value type `Unit`, and its abnormal paths only log. -/
def bacnet_plugin_safe_npdu_handler
    (npdu_handler : List BArg → ExtBehavior Unit)
    (src npdu pdu_len : Nat) (s : PluginState) : CallResult Unit :=
  guarded npduHandlerTag () (npdu_handler (npdu_handler_invoked_args src npdu pdu_len)) s

/-- True when the external call did not return normally: it called the
intercepted `exit` or faulted. -/
def ExtBehavior.abnormal {α : Type} : ExtBehavior α → Bool
  | ExtBehavior.ret _ => false
  | ExtBehavior.callsExit _ => true
  | ExtBehavior.fault => true

/-- One guarded entry-point invocation: which entry point, the external
function the build links it against, and the caller-supplied arguments. -/
inductive Invocation where
  | wpm (f : List BArg → ExtBehavior Nat) (device_id write_access_data : Nat)
  | readRange (f : List BArg → ExtBehavior Nat) (device_id read_range_data : Nat)
  | bipInit (f : List BArg → ExtBehavior Bool) (ifname : String)
  | datalinkInit (f : List BArg → ExtBehavior Bool) (ifname : String)
  | bipReceive (f : List BArg → ExtBehavior Int) (src npdu max_npdu timeout : Nat)
  | npduHandler (f : List BArg → ExtBehavior Unit) (src npdu pdu_len : Nat)

/-- Process state after one guarded invocation finishes. -/
def runInvocation : Invocation → PluginState → PluginState
  | Invocation.wpm f d w, s => (bacnet_plugin_send_write_property_multiple f d w s).state
  | Invocation.readRange f d r, s => (bacnet_plugin_send_read_range_request f d r s).state
  | Invocation.bipInit f i, s => (bacnet_plugin_safe_bip_init f i s).state
  | Invocation.datalinkInit f i, s => (bacnet_plugin_safe_datalink_init f i s).state
  | Invocation.bipReceive f a b c d, s => (bacnet_plugin_safe_bip_receive f a b c d s).state
  | Invocation.npduHandler f a b c, s => (bacnet_plugin_safe_npdu_handler f a b c s).state

/-- The process states observed immediately after each invocation of a
single-thread sequence of guarded calls, in order. -/
def statesAfter : List Invocation → PluginState → List PluginState
  | [], _ => []
  | i :: rest, s =>
      let s2 := runInvocation i s
      s2 :: statesAfter rest s2

/-- Two host threads concurrently inside guarded entry points. -/
inductive ThreadId where
  | tA
  | tB
  deriving DecidableEq, Repr

/-- The single process-wide Isolation Context of lines 7-8: `static jmp_buf
g_exit_jmp; static bool g_jmp_active` — one armed flag and ONE jump buffer
for the whole process, with `owner` recording which thread's `setjmp` wrote
the buffer most recently. -/
structure SharedIsolationCtx where
  armed : Bool
  owner : Option ThreadId
  deriving DecidableEq, Repr

/-- Initial value of the shared context (line 8: `g_jmp_active = false`). -/
def initSharedCtx : SharedIsolationCtx :=
  { armed := false, owner := none }

/-- The arming step `g_jmp_active = true; setjmp(g_exit_jmp)` (lines 38-39
and its copies) executed by thread `t`: since there is one static jump
buffer, arming overwrites the saved control point with `t`'s, whichever
thread saved it before. -/
def armCtx (t : ThreadId) (_ : SharedIsolationCtx) : SharedIsolationCtx :=
  { armed := true, owner := some t }

/-- Which thread's control point `longjmp(g_exit_jmp, 1)` (line 24) resumes
when the interceptor fires: the most recent `setjmp` writer, if armed. -/
def resumeTarget (c : SharedIsolationCtx) : Option ThreadId :=
  if c.armed then c.owner else none

/-- A concrete interface name used to instantiate theorems. -/
def ifname0 : String := "eth0"

/-- A state in which some guarded entry point has armed the context. -/
def armedState : PluginState :=
  { g_jmp_active := true, threadTerminated := false, log := [] }

theorem guarded_ret_eq {α : Type} (tag : String) (x v : α) (s : PluginState) :
    guarded tag x (ExtBehavior.ret v) s =
      CallResult.returned v { s with g_jmp_active := false } := rfl

theorem guarded_exit_eq {α : Type} (tag : String) (x : α) (c : Int) (s : PluginState) :
    guarded tag x (ExtBehavior.callsExit c) s =
      CallResult.returned x
        { g_jmp_active := false, threadTerminated := s.threadTerminated,
          log := (s.log ++ [exitInterceptedMsg c]) ++ [interceptMsg tag] } := rfl

theorem guarded_fault_eq {α : Type} (tag : String) (x : α) (s : PluginState) :
    guarded tag x ExtBehavior.fault s =
      CallResult.returned x
        { g_jmp_active := false, threadTerminated := s.threadTerminated,
          log := s.log ++ [crashMsg tag] } := rfl

theorem guarded_state_flag {α : Type} (tag : String) (x : α) (b : ExtBehavior α)
    (s : PluginState) : ((guarded tag x b s).state).g_jmp_active = false := by
  cases b <;>
    simp [guarded_ret_eq, guarded_exit_eq, guarded_fault_eq, CallResult.state]

theorem guarded_killed_false {α : Type} (tag : String) (x : α) (b : ExtBehavior α)
    (s : PluginState) : (guarded tag x b s).killed = false := by
  cases b <;>
    simp [guarded_ret_eq, guarded_exit_eq, guarded_fault_eq, CallResult.killed]

theorem guarded_state_term {α : Type} (tag : String) (x : α) (b : ExtBehavior α)
    (s : PluginState) :
    ((guarded tag x b s).state).threadTerminated = s.threadTerminated := by
  cases b <;>
    simp [guarded_ret_eq, guarded_exit_eq, guarded_fault_eq, CallResult.state]

theorem guarded_value_ret {α : Type} (tag : String) (x v : α) (s : PluginState) :
    (guarded tag x (ExtBehavior.ret v) s).value = some v := rfl

theorem guarded_value_abnormal {α : Type} (tag : String) (x : α) (b : ExtBehavior α)
    (s : PluginState) (h : b.abnormal = true) :
    (guarded tag x b s).value = some x := by
  cases b with
  | ret v => simp [ExtBehavior.abnormal] at h
  | callsExit c => simp [guarded_exit_eq, CallResult.value]
  | fault => simp [guarded_fault_eq, CallResult.value]

theorem runInvocation_flag (i : Invocation) (s : PluginState) :
    (runInvocation i s).g_jmp_active = false := by
  cases i <;>
    simp [runInvocation, bacnet_plugin_send_write_property_multiple,
      bacnet_plugin_send_read_range_request, bacnet_plugin_safe_bip_init,
      bacnet_plugin_safe_datalink_init, bacnet_plugin_safe_bip_receive,
      bacnet_plugin_safe_npdu_handler, guarded_state_flag]

/-- C1: for every guarded entry point, if the external operation attempts
termination (calls the intercepted `exit`) or triggers a hardware fault, the
entry point returns its designated failure sentinel (`0` for the WPM and
ReadRange writes/reads, `false` for the two datalink-init variants, `-1` for
`bacnet_plugin_safe_bip_receive`), the call returns rather than being killed,
and the host thread's terminated flag is unchanged. -/
theorem C1_abnormal_sentinel_no_termination :
    (∀ (f : List BArg → ExtBehavior Nat) (d w : Nat) (s : PluginState),
      (f (wpm_invoked_args d w)).abnormal = true →
      (bacnet_plugin_send_write_property_multiple f d w s).value = some 0 ∧
      (bacnet_plugin_send_write_property_multiple f d w s).killed = false ∧
      ((bacnet_plugin_send_write_property_multiple f d w s).state).threadTerminated
        = s.threadTerminated) ∧
    (∀ (f : List BArg → ExtBehavior Nat) (d r : Nat) (s : PluginState),
      (f (read_range_invoked_args d r)).abnormal = true →
      (bacnet_plugin_send_read_range_request f d r s).value = some 0 ∧
      (bacnet_plugin_send_read_range_request f d r s).killed = false ∧
      ((bacnet_plugin_send_read_range_request f d r s).state).threadTerminated
        = s.threadTerminated) ∧
    (∀ (f : List BArg → ExtBehavior Bool) (i : String) (s : PluginState),
      (f (bip_init_invoked_args i)).abnormal = true →
      (bacnet_plugin_safe_bip_init f i s).value = some false ∧
      (bacnet_plugin_safe_bip_init f i s).killed = false ∧
      ((bacnet_plugin_safe_bip_init f i s).state).threadTerminated
        = s.threadTerminated) ∧
    (∀ (f : List BArg → ExtBehavior Bool) (i : String) (s : PluginState),
      (f (datalink_init_invoked_args i)).abnormal = true →
      (bacnet_plugin_safe_datalink_init f i s).value = some false ∧
      (bacnet_plugin_safe_datalink_init f i s).killed = false ∧
      ((bacnet_plugin_safe_datalink_init f i s).state).threadTerminated
        = s.threadTerminated) ∧
    (∀ (f : List BArg → ExtBehavior Int) (a b c d : Nat) (s : PluginState),
      (f (bip_receive_invoked_args a b c d)).abnormal = true →
      (bacnet_plugin_safe_bip_receive f a b c d s).value = some (-1) ∧
      (bacnet_plugin_safe_bip_receive f a b c d s).killed = false ∧
      ((bacnet_plugin_safe_bip_receive f a b c d s).state).threadTerminated
        = s.threadTerminated) := by
  refine ⟨?_, ?_, ?_, ?_, ?_⟩
  · intro f d w s h
    exact ⟨guarded_value_abnormal _ _ _ _ h, guarded_killed_false _ _ _ _,
      guarded_state_term _ _ _ _⟩
  · intro f d r s h
    exact ⟨guarded_value_abnormal _ _ _ _ h, guarded_killed_false _ _ _ _,
      guarded_state_term _ _ _ _⟩
  · intro f i s h
    exact ⟨guarded_value_abnormal _ _ _ _ h, guarded_killed_false _ _ _ _,
      guarded_state_term _ _ _ _⟩
  · intro f i s h
    exact ⟨guarded_value_abnormal _ _ _ _ h, guarded_killed_false _ _ _ _,
      guarded_state_term _ _ _ _⟩
  · intro f a b c d s h
    exact ⟨guarded_value_abnormal _ _ _ _ h, guarded_killed_false _ _ _ _,
      guarded_state_term _ _ _ _⟩

theorem C1_witness :
    (bacnet_plugin_send_write_property_multiple
      (fun _ => ExtBehavior.callsExit 1) 5 6 initState).value = some 0 ∧
    (bacnet_plugin_send_read_range_request
      (fun _ => ExtBehavior.fault) 7 8 initState).value = some 0 ∧
    (bacnet_plugin_safe_bip_init
      (fun _ => ExtBehavior.callsExit 2) ifname0 initState).value = some false ∧
    (bacnet_plugin_safe_datalink_init
      (fun _ => ExtBehavior.fault) ifname0 initState).value = some false ∧
    (bacnet_plugin_safe_bip_receive
      (fun _ => ExtBehavior.callsExit 3) 1 2 3 4 initState).value = some (-1) :=
  ⟨(C1_abnormal_sentinel_no_termination.1
      (fun _ => ExtBehavior.callsExit 1) 5 6 initState rfl).1,
   (C1_abnormal_sentinel_no_termination.2.1
      (fun _ => ExtBehavior.fault) 7 8 initState rfl).1,
   (C1_abnormal_sentinel_no_termination.2.2.1
      (fun _ => ExtBehavior.callsExit 2) ifname0 initState rfl).1,
   (C1_abnormal_sentinel_no_termination.2.2.2.1
      (fun _ => ExtBehavior.fault) ifname0 initState rfl).1,
   (C1_abnormal_sentinel_no_termination.2.2.2.2
      (fun _ => ExtBehavior.callsExit 3) 1 2 3 4 initState rfl).1⟩

/-- C2: for every sequence of guarded entry-point invocations on a single
thread and every starting state, the armed flag `g_jmp_active` is `false`
immediately after each invocation returns, on all three outcome paths
(the external function in each `Invocation` is arbitrary, so every path is
covered). -/
theorem C2_armed_flag_clear_after_each_invocation :
    ∀ (l : List Invocation) (s : PluginState),
      ((statesAfter l s).all fun s2 => !s2.g_jmp_active) = true := by
  intro l
  induction l with
  | nil => intro s; rfl
  | cons i rest ih =>
      intro s
      simp [statesAfter, runInvocation_flag, ih]

/-- C3: for every guarded entry point, if the external operation returns
normally with value `V`, the entry point returns `V` unchanged to the host
(and the no-value dispatch entry point returns normally with `()`). -/
theorem C3_normal_value_unchanged :
    (∀ (f : List BArg → ExtBehavior Nat) (d w v : Nat) (s : PluginState),
      f (wpm_invoked_args d w) = ExtBehavior.ret v →
      (bacnet_plugin_send_write_property_multiple f d w s).value = some v) ∧
    (∀ (f : List BArg → ExtBehavior Nat) (d r v : Nat) (s : PluginState),
      f (read_range_invoked_args d r) = ExtBehavior.ret v →
      (bacnet_plugin_send_read_range_request f d r s).value = some v) ∧
    (∀ (f : List BArg → ExtBehavior Bool) (i : String) (v : Bool) (s : PluginState),
      f (bip_init_invoked_args i) = ExtBehavior.ret v →
      (bacnet_plugin_safe_bip_init f i s).value = some v) ∧
    (∀ (f : List BArg → ExtBehavior Bool) (i : String) (v : Bool) (s : PluginState),
      f (datalink_init_invoked_args i) = ExtBehavior.ret v →
      (bacnet_plugin_safe_datalink_init f i s).value = some v) ∧
    (∀ (f : List BArg → ExtBehavior Int) (a b c d : Nat) (v : Int) (s : PluginState),
      f (bip_receive_invoked_args a b c d) = ExtBehavior.ret v →
      (bacnet_plugin_safe_bip_receive f a b c d s).value = some v) ∧
    (∀ (f : List BArg → ExtBehavior Unit) (a b c : Nat) (u : Unit) (s : PluginState),
      f (npdu_handler_invoked_args a b c) = ExtBehavior.ret u →
      (bacnet_plugin_safe_npdu_handler f a b c s).value = some u) := by
  refine ⟨?_, ?_, ?_, ?_, ?_, ?_⟩
  · intro f d w v s h
    simp only [bacnet_plugin_send_write_property_multiple, h, guarded_value_ret]
  · intro f d r v s h
    simp only [bacnet_plugin_send_read_range_request, h, guarded_value_ret]
  · intro f i v s h
    simp only [bacnet_plugin_safe_bip_init, h, guarded_value_ret]
  · intro f i v s h
    simp only [bacnet_plugin_safe_datalink_init, h, guarded_value_ret]
  · intro f a b c d v s h
    simp only [bacnet_plugin_safe_bip_receive, h, guarded_value_ret]
  · intro f a b c u s h
    simp only [bacnet_plugin_safe_npdu_handler, h, guarded_value_ret]

theorem C3_witness :
    (bacnet_plugin_send_write_property_multiple
      (fun _ => ExtBehavior.ret 7) 1 2 initState).value = some 7 ∧
    (bacnet_plugin_send_read_range_request
      (fun _ => ExtBehavior.ret 9) 1 2 initState).value = some 9 ∧
    (bacnet_plugin_safe_bip_init
      (fun _ => ExtBehavior.ret true) ifname0 initState).value = some true ∧
    (bacnet_plugin_safe_datalink_init
      (fun _ => ExtBehavior.ret true) ifname0 initState).value = some true ∧
    (bacnet_plugin_safe_bip_receive
      (fun _ => ExtBehavior.ret 42) 1 2 3 4 initState).value = some 42 ∧
    (bacnet_plugin_safe_npdu_handler
      (fun _ => ExtBehavior.ret ()) 1 2 3 initState).value = some () :=
  ⟨C3_normal_value_unchanged.1 (fun _ => ExtBehavior.ret 7) 1 2 7 initState rfl,
   C3_normal_value_unchanged.2.1 (fun _ => ExtBehavior.ret 9) 1 2 9 initState rfl,
   C3_normal_value_unchanged.2.2.1 (fun _ => ExtBehavior.ret true) ifname0 true initState rfl,
   C3_normal_value_unchanged.2.2.2.1 (fun _ => ExtBehavior.ret true) ifname0 true initState rfl,
   C3_normal_value_unchanged.2.2.2.2.1 (fun _ => ExtBehavior.ret 42) 1 2 3 4 42 initState rfl,
   C3_normal_value_unchanged.2.2.2.2.2 (fun _ => ExtBehavior.ret ()) 1 2 3 () initState rfl⟩

/-- C4: whenever `bacnet_plugin_exit_handler` is invoked with a termination
code while the Isolation Context is armed, it does not terminate anything:
it ends in the `longjmp` back to the most recently armed control point
(`ExitResult.resumed`), leaving the terminated flag unchanged. -/
theorem C4_interceptor_resumes_while_armed :
    ∀ (code : Int) (s : PluginState), s.g_jmp_active = true →
      (bacnet_plugin_exit_handler code s).1 = ExitResult.resumed ∧
      ((bacnet_plugin_exit_handler code s).2).threadTerminated
        = s.threadTerminated := by
  intro code s h
  simp [bacnet_plugin_exit_handler, h]

theorem C4_witness :
    (bacnet_plugin_exit_handler 1 armedState).1 = ExitResult.resumed ∧
    ((bacnet_plugin_exit_handler 1 armedState).2).threadTerminated
      = armedState.threadTerminated :=
  C4_interceptor_resumes_while_armed 1 armedState rfl

/-- C5: if `bacnet_plugin_exit_handler` is invoked while no Isolation
Context is armed, it terminates the calling thread with the given code (the
`TerminateThread` last-resort fallback) rather than resuming. -/
theorem C5_interceptor_terminates_while_unarmed :
    ∀ (code : Int) (s : PluginState), s.g_jmp_active = false →
      (bacnet_plugin_exit_handler code s).1 = ExitResult.terminated code ∧
      ((bacnet_plugin_exit_handler code s).2).threadTerminated = true := by
  intro code s h
  simp [bacnet_plugin_exit_handler, h]

theorem C5_witness :
    (bacnet_plugin_exit_handler 7 initState).1 = ExitResult.terminated 7 ∧
    ((bacnet_plugin_exit_handler 7 initState).2).threadTerminated = true :=
  C5_interceptor_terminates_while_unarmed 7 initState rfl

/-- C6 counterexample: the Isolation Context of lines 7-8 is ONE static
(process-wide) flag and jump buffer, not thread-local. With thread A armed
inside a guarded call and thread B then arming the same shared context, a
termination attempt during A's call transfers control to B's most recently
recorded control point, not A's — refuting the claim that each thread
observes only its own Outcome. -/
theorem C6_counterexample :
    resumeTarget (armCtx ThreadId.tB (armCtx ThreadId.tA initSharedCtx))
      = some ThreadId.tB ∧
    ¬ resumeTarget (armCtx ThreadId.tB (armCtx ThreadId.tA initSharedCtx))
      = some ThreadId.tA := by
  decide

/-- C6 amended: the Isolation Context is a single process-wide static shared
by every thread; arming records the arming thread as the sole owner of the
one control point, so with two in-flight guarded calls the later armer
overwrites the earlier one's resume point and any intercepted termination
resumes at the most recent armer's frame; only with a single in-flight
guarded call does the interception resume in the invoking thread. -/
theorem C6_amended_single_shared_context :
    (∀ (t : ThreadId) (c : SharedIsolationCtx),
        (armCtx t c).armed = true ∧ (armCtx t c).owner = some t) ∧
    (∀ (t t2 : ThreadId) (c : SharedIsolationCtx),
        resumeTarget (armCtx t2 (armCtx t c)) = some t2) ∧
    (∀ (t : ThreadId) (c : SharedIsolationCtx),
        resumeTarget (armCtx t c) = some t) :=
  ⟨fun _ _ => ⟨rfl, rfl⟩, fun _ _ _ => rfl, fun _ _ => rfl⟩

/-- C7 counterexample: a WPM call whose external operation calls the
intercepted `exit(1)` returns `0` but emits TWO diagnostic lines, not one:
the interceptor's `"BACnet Native Exit Intercepted: code 1\n"` and the entry
point's `"BACnet WPM: Intercepted exit()\n"` (neither of which contains the
phrase `write-property-multiple`). -/
theorem C7_counterexample :
    (bacnet_plugin_send_write_property_multiple
      (fun _ => ExtBehavior.callsExit 1) 1 2 initState).value = some 0 ∧
    ((bacnet_plugin_send_write_property_multiple
      (fun _ => ExtBehavior.callsExit 1) 1 2 initState).state).log
      = [exitInterceptedMsg 1, interceptMsg wpmTag] ∧
    ¬ ((bacnet_plugin_send_write_property_multiple
      (fun _ => ExtBehavior.callsExit 1) 1 2 initState).state).log.length = 1 :=
  ⟨rfl, rfl, by decide⟩

/-- C7 amended: a call to submit-multi-property-write whose external
operation calls the intercepted `exit(1)` returns `0` and appends exactly
two diagnostic lines: the interceptor's line `"BACnet Native Exit
Intercepted: code 1\n"` followed by the entry point's line `"BACnet WPM:
Intercepted exit()\n"` — the entry point is identified by the tag `WPM`
and the outcome by the word `Intercepted`, not by the phrase
`write-property-multiple`. -/
theorem C7_amended_two_diagnostic_lines :
    ∀ (d w : Nat) (s : PluginState),
      (bacnet_plugin_send_write_property_multiple
        (fun _ => ExtBehavior.callsExit 1) d w s).value = some 0 ∧
      ((bacnet_plugin_send_write_property_multiple
        (fun _ => ExtBehavior.callsExit 1) d w s).state).log
        = s.log ++ [exitInterceptedMsg 1, interceptMsg wpmTag] := by
  intro d w s
  constructor
  · exact guarded_value_abnormal _ _ _ _ rfl
  · show ((guarded wpmTag 0 (ExtBehavior.callsExit 1) s).state).log = _
    simp [guarded_exit_eq, CallResult.state]

/-- C8 counterexample: the WPM entry point does NOT forward only its
caller-supplied arguments — at line 41 it passes its local zeroed `pdu`
buffer and `sizeof(pdu)` in addition to the caller's `device_id` and
`write_access_data`, so its invoked argument list differs from its
caller-supplied argument list (here at `device_id = 1`,
`write_access_data = 2`). -/
theorem C8_counterexample :
    ¬ wpm_invoked_args 1 2 = wpm_caller_args 1 2 := by
  decide

/-- C8 amended: every guarded entry point calls exactly one external-stack
function and forwards its caller-supplied arguments to it verbatim; the
ReadRange, two datalink-init, receive and dispatch entry points introduce no
additional arguments, while submit-multi-property-write additionally passes
a wrapper-introduced zeroed `MAX_APDU`-byte PDU buffer and its size in front
of the caller's arguments. -/
theorem C8_amended_verbatim_forwarding :
    (∀ (d r : Nat), read_range_invoked_args d r = read_range_caller_args d r) ∧
    (∀ (i : String), bip_init_invoked_args i = bip_init_caller_args i) ∧
    (∀ (i : String), datalink_init_invoked_args i = datalink_init_caller_args i) ∧
    (∀ (a b c d : Nat),
        bip_receive_invoked_args a b c d = bip_receive_caller_args a b c d) ∧
    (∀ (a b c : Nat),
        npdu_handler_invoked_args a b c = npdu_handler_caller_args a b c) ∧
    (∀ (d w : Nat), wpm_invoked_args d w =
        BArg.buf (List.replicate MAX_APDU 0) :: BArg.num MAX_APDU
          :: wpm_caller_args d w) :=
  ⟨fun _ _ => rfl, fun _ => rfl, fun _ => rfl, fun _ _ _ _ => rfl,
   fun _ _ _ => rfl, fun _ _ => rfl⟩

/-- C9: for every pair of termination codes `c1`, `c2` that the external
operation may pass to the intercepted `exit`, every guarded entry point
returns the same value to the host — the sentinel — so the value returned
on an intercepted termination does not depend on the termination code. -/
theorem C9_sentinel_independent_of_exit_code :
    ∀ (c1 c2 : Int),
      (∀ (d w : Nat) (s : PluginState),
        (bacnet_plugin_send_write_property_multiple
          (fun _ => ExtBehavior.callsExit c1) d w s).value =
        (bacnet_plugin_send_write_property_multiple
          (fun _ => ExtBehavior.callsExit c2) d w s).value ∧
        (bacnet_plugin_send_write_property_multiple
          (fun _ => ExtBehavior.callsExit c1) d w s).value = some 0) ∧
      (∀ (d r : Nat) (s : PluginState),
        (bacnet_plugin_send_read_range_request
          (fun _ => ExtBehavior.callsExit c1) d r s).value =
        (bacnet_plugin_send_read_range_request
          (fun _ => ExtBehavior.callsExit c2) d r s).value ∧
        (bacnet_plugin_send_read_range_request
          (fun _ => ExtBehavior.callsExit c1) d r s).value = some 0) ∧
      (∀ (i : String) (s : PluginState),
        (bacnet_plugin_safe_bip_init
          (fun _ => ExtBehavior.callsExit c1) i s).value =
        (bacnet_plugin_safe_bip_init
          (fun _ => ExtBehavior.callsExit c2) i s).value ∧
        (bacnet_plugin_safe_bip_init
          (fun _ => ExtBehavior.callsExit c1) i s).value = some false) ∧
      (∀ (i : String) (s : PluginState),
        (bacnet_plugin_safe_datalink_init
          (fun _ => ExtBehavior.callsExit c1) i s).value =
        (bacnet_plugin_safe_datalink_init
          (fun _ => ExtBehavior.callsExit c2) i s).value ∧
        (bacnet_plugin_safe_datalink_init
          (fun _ => ExtBehavior.callsExit c1) i s).value = some false) ∧
      (∀ (a b c d : Nat) (s : PluginState),
        (bacnet_plugin_safe_bip_receive
          (fun _ => ExtBehavior.callsExit c1) a b c d s).value =
        (bacnet_plugin_safe_bip_receive
          (fun _ => ExtBehavior.callsExit c2) a b c d s).value ∧
        (bacnet_plugin_safe_bip_receive
          (fun _ => ExtBehavior.callsExit c1) a b c d s).value = some (-1)) ∧
      (∀ (a b c : Nat) (s : PluginState),
        (bacnet_plugin_safe_npdu_handler
          (fun _ => ExtBehavior.callsExit c1) a b c s).value =
        (bacnet_plugin_safe_npdu_handler
          (fun _ => ExtBehavior.callsExit c2) a b c s).value ∧
        (bacnet_plugin_safe_npdu_handler
          (fun _ => ExtBehavior.callsExit c1) a b c s).value = some ()) :=
  fun _ _ =>
    ⟨fun _ _ _ => ⟨rfl, rfl⟩, fun _ _ _ => ⟨rfl, rfl⟩, fun _ _ => ⟨rfl, rfl⟩,
     fun _ _ => ⟨rfl, rfl⟩, fun _ _ _ _ _ => ⟨rfl, rfl⟩,
     fun _ _ _ _ => ⟨rfl, rfl⟩⟩

/-- C10: within guarded invocations on the invoking thread the interceptor's
`TerminateThread` fallback is unreachable: every entry point arms the
context (`g_jmp_active = true`) before invoking the external operation, so
whatever the external function does, no guarded entry point ever ends in
`TerminateThread` — every guarded call returns. -/
theorem C10_terminate_fallback_unreachable :
    (∀ (f : List BArg → ExtBehavior Nat) (d w : Nat) (s : PluginState),
      (bacnet_plugin_send_write_property_multiple f d w s).killed = false) ∧
    (∀ (f : List BArg → ExtBehavior Nat) (d r : Nat) (s : PluginState),
      (bacnet_plugin_send_read_range_request f d r s).killed = false) ∧
    (∀ (f : List BArg → ExtBehavior Bool) (i : String) (s : PluginState),
      (bacnet_plugin_safe_bip_init f i s).killed = false) ∧
    (∀ (f : List BArg → ExtBehavior Bool) (i : String) (s : PluginState),
      (bacnet_plugin_safe_datalink_init f i s).killed = false) ∧
    (∀ (f : List BArg → ExtBehavior Int) (a b c d : Nat) (s : PluginState),
      (bacnet_plugin_safe_bip_receive f a b c d s).killed = false) ∧
    (∀ (f : List BArg → ExtBehavior Unit) (a b c : Nat) (s : PluginState),
      (bacnet_plugin_safe_npdu_handler f a b c s).killed = false) :=
  ⟨fun _ _ _ _ => guarded_killed_false _ _ _ _,
   fun _ _ _ _ => guarded_killed_false _ _ _ _,
   fun _ _ _ => guarded_killed_false _ _ _ _,
   fun _ _ _ => guarded_killed_false _ _ _ _,
   fun _ _ _ _ _ _ => guarded_killed_false _ _ _ _,
   fun _ _ _ _ _ => guarded_killed_false _ _ _ _⟩
